import Mathlib

/-!
Shallow embedding of the VittaManthan query-serving backend
(FastAPIProject1/app): the query-result cache (app/utils/cache.py), the
tiered dataset store (app/utils/data_store.py), the answer generator
(app/utils/answer_generator.py) and the query-resolution endpoints
(app/api/transactions.py).

External collaborators that are out of scope per the design (the FAISS
index builder, the retrieval engine, the LLM generation engine, filter
extraction and mode classification, which live in modules not present in
the repository snapshot) are passed in as function parameters, and every
call to one of them is recorded in an explicit effect trace so that
claims of the form "X is never invoked" can be stated.

Python idioms are rendered as follows: datetimes and timedeltas are
integers in a single time unit; `None` is `Option.none`; Python string
truthiness (`if user_id:`) is an explicit emptiness test; dictionaries
are association lists with replace-on-insert; exceptions that the source
catches are modeled by `Except` collaborators or failure flags folded
into the state; transaction amounts (Python floats) are integers, which
preserves every ordering and comparison fact the claims use.
-/

namespace VittaManthan

/-- A transaction record. The core only ever inspects the numeric amount
field (for sorting and statistics); the rest of the loosely structured
record is carried opaquely in `payload`. -/
structure Txn where
  amount : Int
  payload : String
  deriving DecidableEq, Repr

/-- Opaque FAISS vector store handle (external collaborator output). -/
structure VectorStore where
  tag : Nat
  deriving DecidableEq, Repr

/-- Opaque LangChain document (external collaborator output). -/
abbrev LangDoc := String

/-- Canonicalized filter set, opaque to the cache and orchestrator; the
endpoints only thread it between the extractor, the applier and the
fingerprint function. -/
abbrev Filters := List (String × String)

/-- Statistics block, opaque to the cache and orchestrator. -/
abbrev Statistics := List (String × Int)

/-- Effects recorded by the embedding: each constructor marks one call
into a collaborator (classifier, filter extractor, filter applier,
generation engine, durable table, index builder). -/
inductive Eff where
  | classifyMode
  | extractFilters
  | applyFiltersE
  | generate
  | dbQuery
  | rebuildIndex
  deriving DecidableEq, Repr

/-! ### Association-list dictionaries (Python dict semantics) -/

/-- Lookup by key in an association list (first binding wins). -/
def lookupKey (k : String) : List (String × α) → Option α
  | [] => none
  | (k2, v) :: rest => if k2 = k then some v else lookupKey k rest

/-- Python dict assignment: replace any existing binding for the key. -/
def insertAssoc (k : String) (v : α) (l : List (String × α)) : List (String × α) :=
  (k, v) :: l.filter (fun p => p.1 ≠ k)

/-- Python `del d[k]`. -/
def eraseKey (k : String) (l : List (String × α)) : List (String × α) :=
  l.filter (fun p => p.1 ≠ k)

/-! ### Query Result Cache — app/utils/cache.py -/

/-- One entry of the query cache, as stored by `cache_query_results`. -/
structure CacheEntry where
  answer : String
  mode : String
  filtered_docs : List Txn
  filters_applied : Option (List String)
  statistics : Option Statistics
  timestamp : Int
  deriving DecidableEq, Repr

/-- The module-level `query_cache` dictionary. -/
abbrev QCache := List (String × CacheEntry)

/-- `generate_query_id(prompt, filters, user_id=None)` from cache.py.
The MD5 hash and `json.dumps(filters, sort_keys=True)` are external pure
functions, passed as parameters `md5` and `dump`; properties proved below
hold for every choice of them. Python truthiness of `user_id` (both
`None` and the empty string are falsy) is rendered explicitly. -/
def generate_query_id (md5 : String → String) (dump : Filters → String)
    (prompt : String) (filters : Filters) (user_id : Option String) : String :=
  let user_part :=
    match user_id with
    | some uid => if uid = "" then "global_" else "user_" ++ uid ++ "_"
    | none => "global_"
  md5 (user_part ++ prompt ++ "_" ++ dump filters)

/-- `cleanup_expired_cache()` at time `now` with configured TTL: removes
every entry whose age strictly exceeds the TTL (the source collects keys
with `now - timestamp > ttl` and deletes them; the net effect is keeping
exactly the entries with `now - timestamp <= ttl`). -/
def cleanup_expired_cache (now ttl : Int) (c : QCache) : QCache :=
  c.filter (fun p => decide (now - p.2.timestamp ≤ ttl))

/-- `get_cached_query(query_id)` at time `now`: runs the opportunistic
cleanup sweep, then returns the entry if its age is at most the TTL,
deleting it (lazy expiry) otherwise. Returns the result together with the
updated global cache. -/
def get_cached_query (now ttl : Int) (query_id : String) (c : QCache) :
    Option CacheEntry × QCache :=
  let c1 := cleanup_expired_cache now ttl c
  match lookupKey query_id c1 with
  | some e =>
    if now - e.timestamp ≤ ttl then (some e, c1)
    else (none, eraseKey query_id c1)
  | none => (none, c1)

/-- `cache_query_results(...)` at time `now`: stores the entry under the
fingerprint, overwriting any previous binding. -/
def cache_query_results (query_id answer mode : String) (filtered_docs : List Txn)
    (filters_applied : Option (List String)) (statistics : Option Statistics)
    (now : Int) (c : QCache) : QCache :=
  insertAssoc query_id
    { answer := answer, mode := mode, filtered_docs := filtered_docs,
      filters_applied := filters_applied, statistics := statistics,
      timestamp := now } c

/-! ### Dataset Store — app/utils/data_store.py -/

/-- One identity-scoped dataset, matching the dictionaries stored in
`_memory_cache` / `_legacy_store` (transactions, vectorstore,
langchain_docs, last_updated). -/
structure Dataset where
  transactions : List Txn
  vectorstore : Option VectorStore
  langchain_docs : List LangDoc
  last_updated : Option String
  deriving DecidableEq, Repr

/-- The empty structure returned by `get_ingested_data` when neither tier
has data. -/
def emptyDataset : Dataset :=
  { transactions := [], vectorstore := none, langchain_docs := [], last_updated := none }

/-- One row of the durable `UserData` table: only the raw transactions and
the last-updated stamp are persisted (the vectorstore column is always
written empty and rebuilt on load, so it is not modeled). -/
structure DBRecord where
  transactions : List Txn
  last_updated : String
  deriving DecidableEq, Repr

/-- The mutable state of the data store module: the in-memory tier
`_memory_cache`, the legacy global store `_legacy_store`, the durable
PostgreSQL table, and the error log (durable-tier failures are only
observable here). -/
structure StoreState where
  memory : List (String × Dataset)
  legacy : Dataset
  db : List (String × DBRecord)
  log : List String
  deriving DecidableEq, Repr

/-- Python truthiness of the optional `user_id` argument: `None` and the
empty string are both falsy. -/
def isUser : Option String → Bool
  | some u => u ≠ ""
  | none => false

/-- `storage_key = user_id if user_id else "global"`. -/
def storageKey (uid : Option String) : String :=
  match uid with
  | some u => if u = "" then "global" else u
  | none => "global"

/-- The body of the background `save_to_db` thread inside
`set_ingested_data`: on success it upserts the row keyed by the identity;
on any exception it rolls the transaction back and appends to the log.
The exception is swallowed by the `try/except` and by the daemon thread,
so the function is total and returns a plain state either way. -/
def save_to_db (key : String) (transactions : List Txn) (now : String)
    (dbFails : Bool) (st : StoreState) : StoreState :=
  if dbFails then
    { st with log := ("Background database save failed for " ++ key) :: st.log }
  else
    { st with db := insertAssoc key { transactions := transactions, last_updated := now } st.db }

/-- The synchronous part of `set_ingested_data(transactions, vectorstore,
langchain_docs, user_id)`: the state at the moment the call returns to
its caller — the in-memory tier (or the legacy store) already holds the
new dataset, and the durable write has merely been scheduled. -/
def set_ingested_data_sync (transactions : List Txn) (vectorstore : VectorStore)
    (langchain_docs : List LangDoc) (uid : Option String) (now : String)
    (st : StoreState) : StoreState :=
  let key := storageKey uid
  let data : Dataset :=
    { transactions := transactions, vectorstore := some vectorstore,
      langchain_docs := langchain_docs, last_updated := some now }
  if isUser uid then { st with memory := insertAssoc key data st.memory }
  else { st with legacy := data }

/-- `set_ingested_data` including the completion of the background
durable write (started only when the database is available and a real
user id was given): the state after the fire-and-forget task has run,
with `dbFails` selecting whether that task hit an exception. -/
def set_ingested_data (transactions : List Txn) (vectorstore : VectorStore)
    (langchain_docs : List LangDoc) (uid : Option String) (now : String)
    (dbAvailable dbFails : Bool) (st : StoreState) : StoreState :=
  let st1 := set_ingested_data_sync transactions vectorstore langchain_docs uid now st
  if dbAvailable && isUser uid then save_to_db (storageKey uid) transactions now dbFails st1
  else st1

/-- `get_ingested_data(user_id)`: L1 memory-tier hit, else legacy store
for falsy identities, else a durable-tier load that rebuilds the derived
index through the external `build` collaborator (`none` models a rebuild
exception, caught by the source and degraded to a null vectorstore and
empty langchain docs), installs the reconstructed dataset in the memory
tier, and falls back to the empty structure when no tier has data.
Returns the dataset, the updated state, and the collaborator effects. -/
def get_ingested_data (uid : Option String) (dbAvailable : Bool)
    (build : List Txn → Option (VectorStore × List LangDoc))
    (st : StoreState) : Dataset × StoreState × List Eff :=
  let key := storageKey uid
  match (if isUser uid then lookupKey key st.memory else none) with
  | some d => (d, st, [])
  | none =>
    if !isUser uid then (st.legacy, st, [])
    else if dbAvailable then
      match lookupKey key st.db with
      | some rec =>
        let rebuilt :=
          match build rec.transactions with
          | some p => (some p.1, p.2)
          | none => (none, [])
        let data : Dataset :=
          { transactions := rec.transactions, vectorstore := rebuilt.1,
            langchain_docs := rebuilt.2, last_updated := some rec.last_updated }
        (data, { st with memory := insertAssoc key data st.memory },
         [Eff.dbQuery, Eff.rebuildIndex])
      | none => (emptyDataset, st, [Eff.dbQuery])
    else (emptyDataset, st, [])

/-- `has_ingested_data(user_id)`: non-emptiness of the memory-tier
dataset on an L1 hit, non-emptiness of the legacy store for falsy
identities, and bare row existence in the durable tier otherwise (no
index rebuild is triggered). -/
def has_ingested_data (uid : Option String) (dbAvailable : Bool)
    (st : StoreState) : Bool :=
  let key := storageKey uid
  match (if isUser uid then lookupKey key st.memory else none) with
  | some d => decide (d.transactions.length > 0)
  | none =>
    if !isUser uid then decide (st.legacy.transactions.length > 0)
    else if dbAvailable then (lookupKey key st.db).isSome
    else false

/-! ### String helpers for the Python idioms `kw in s` and script checks -/

/-- Boolean prefix test on character lists. -/
def prefixB : List Char → List Char → Bool
  | [], _ => true
  | _ :: _, [] => false
  | p :: ps, h :: t => p = h && prefixB ps t

/-- Boolean infix test on character lists (Python `pat in hay`). -/
def containsSeq (pat : List Char) : List Char → Bool
  | [] => prefixB pat []
  | h :: t => prefixB pat (h :: t) || containsSeq pat t

/-- Python substring containment `pat in s`. -/
def strContains (s pat : String) : Bool :=
  containsSeq pat.toList s.toList

/-- Python `any(0x900 <= ord(c) <= 0x97F for c in question)`: does the
question contain a Devanagari code point. -/
def isHindiText (question : String) : Bool :=
  question.toList.any (fun ch => decide (0x900 ≤ ch.toNat ∧ ch.toNat ≤ 0x97F))

/-- Hinglish keyword test used by `generate_conversational_answer`. -/
def isHinglishText (question : String) : Bool :=
  ["mujhe", "saari", "dikhao", "batao", "kya", "ki", "se", "ko"].any
    (fun w => strContains question.toLower w)

/-- Hinglish keyword test used by the streaming variant (shorter list). -/
def isHinglishTextStream (question : String) : Bool :=
  ["mujhe", "saari", "dikhao", "batao", "kya"].any
    (fun w => strContains question.toLower w)

/-! ### Answer generator — app/utils/answer_generator.py -/

/-- The external LLM collaborator: `invoke` and `astream` may throw,
which the source catches and degrades to a template answer. -/
structure LLM where
  invoke : String → Except String String
  astream : String → Except String (List String)

/-- The fixed message returned by `generate_conversational_answer` when
the matching subset is empty. -/
def noTxnMessage : String :=
  "No transactions found matching your query. Please try adjusting your search criteria or filters."

/-- Template fallback of `generate_conversational_answer` when no LLM is
available or the LLM call failed (language picked from the question;
the decimal money formatting of the source is rendered with toString). -/
def fallbackTemplate (question : String) (filtered_docs : List Txn) : String :=
  let count := toString filtered_docs.length
  let total := toString (filtered_docs.map Txn.amount).sum
  if isHindiText question then
    "नमस्ते! 😊 " ++ count ++ " ट्रांज़ैक्शन मिली हैं। कुल राशि: ₹" ++ total
  else if isHinglishText question then
    "Namaste! 😊 Maine " ++ count ++ " transactions nikali hain. Total: ₹" ++ total
  else
    "Hello! 😊 I found " ++ count ++ " transaction(s). Total: ₹" ++ total

/-- The prompt handed to the LLM by `generate_conversational_answer`:
the user question followed by the computed context block (count, applied
filters, aggregate statistics, sample rows). The long literal instruction
text of the source is condensed; only the data dependencies matter to the
properties proved here. -/
def answerPrompt (question : String) (filtered_docs : List Txn)
    (filter_descriptions : Option (List String)) : String :=
  let filter_context :=
    match filter_descriptions with
    | some ds => String.intercalate ", " ds
    | none => "No filters"
  "USER QUESTION: " ++ question ++
    " TOTAL MATCHING: " ++ toString filtered_docs.length ++
    " FILTERS: " ++ filter_context ++
    " TOTAL AMOUNT: " ++ toString (filtered_docs.map Txn.amount).sum ++
    " SAMPLE: " ++ String.intercalate "; " ((filtered_docs.take 10).map Txn.payload)

/-- `generate_conversational_answer(question, filtered_docs, filters,
filter_descriptions, show_all, llm_instance)`: the empty-subset guard
returns a canned message before anything else; otherwise the LLM is
invoked when supplied (falling back to the template on an exception), or
the template is used directly. Returns the answer and the effect trace. -/
def generate_conversational_answer (question : String) (filtered_docs : List Txn)
    (filters : Filters) (filter_descriptions : Option (List String))
    (show_all : Bool) (llm_instance : Option LLM) : String × List Eff :=
  if filtered_docs.isEmpty then (noTxnMessage, [])
  else
    match llm_instance with
    | some llm =>
      match llm.invoke (answerPrompt question filtered_docs filter_descriptions) with
      | Except.ok resp => (resp, [Eff.generate])
      | Except.error _ => (fallbackTemplate question filtered_docs, [Eff.generate])
    | none => (fallbackTemplate question filtered_docs, [])

/-- The single chunk yielded by the streaming variant on an empty
matching subset (depends only on the language of the question). -/
def noTxnStreamMessage (question : String) : String :=
  if isHindiText question then
    "मुझे आपके सवाल से मेल खाने वाली कोई ट्रांज़ैक्शन नहीं मिली। 😊"
  else if isHinglishTextStream question then
    "Sorry! 😊 Aapke filters ke hisaab se koi transaction nahi mili."
  else
    "No transactions found matching your query."

/-- `generate_conversational_answer_stream(...)`: yields exactly one
no-data chunk and stops when the matching subset is empty; otherwise
streams the LLM output (degrading to one template chunk on an exception)
or yields the template directly when no LLM was supplied. The returned
list is the ordered sequence of yielded chunks. -/
def generate_conversational_answer_stream (question : String)
    (filtered_docs : List Txn) (filters : Filters)
    (filter_descriptions : Option (List String))
    (llm_instance : Option LLM) : List String × List Eff :=
  if filtered_docs.isEmpty then ([noTxnStreamMessage question], [])
  else
    match llm_instance with
    | some llm =>
      match llm.astream (answerPrompt question filtered_docs filter_descriptions) with
      | Except.ok chunks => (chunks, [Eff.generate])
      | Except.error _ => ([fallbackTemplate question filtered_docs], [Eff.generate])
    | none => ([fallbackTemplate question filtered_docs], [])

/-! ### Query-resolution endpoints — app/api/transactions.py -/

/-- The body of a `/prompt` (or `/query/stream`) request
(`PromptRequest` in app/models/schemas.py, not in the snapshot; its
fields are exactly the ones the endpoint reads). -/
structure PromptRequest where
  prompt : String
  user_id : Option String
  query_id : Option String
  page : Nat
  page_size : Nat
  show_all : Bool
  use_full_data : Option Bool
  deriving DecidableEq, Repr

/-- An HTTPException raised by an endpoint. -/
structure HTTPErr where
  status : Nat
  detail : String
  deriving DecidableEq, Repr

/-- The pagination metadata block built by the endpoints. -/
structure Pagination where
  page : Nat
  page_size : Nat
  total_items : Nat
  total_pages : Nat
  has_next : Bool
  has_prev : Bool
  deriving DecidableEq, Repr

/-- The `RAGResponse` payload returned by `/query` and `/prompt`.
Formatted transactions are opaque strings produced by the external
`format_transaction_for_api`. -/
structure RAGResponse where
  query_id : String
  mode : String
  matching_transactions_count : Nat
  filters_applied : Option (List String)
  answer : String
  transactions : Option (List String)
  pagination : Option Pagination
  statistics : Option Statistics
  deriving DecidableEq, Repr

/-- The external collaborators consumed by the endpoints: the filter
extractor and applier, the mode classifier, the RAG processing functions
(each of which drives the generation engine), the API formatter, the
counting-regex matcher, the index builder and the durable-tier
availability flag. All are pure functions supplied by the environment. -/
structure Collab where
  extract_filters : String → Filters
  apply_filters : List Txn → Filters → String → List Txn × List String
  detect_query_mode : String → List Txn → String
  process_statistical : List Txn → String → String × Statistics × List String × Nat
  process_smart_full : List Txn → String → Bool → String × List Txn × List String
  process_analytical : List Txn → String → String
  process_vector_search : Option VectorStore → String → Nat → String
  process_smart_full_stream : List Txn → String → List String
  process_analytical_stream : List Txn → String → List String
  process_vector_search_stream : Option VectorStore → String → Nat → List String
  format_txn : Txn → String
  is_counting_query : String → Bool
  build : List Txn → Option (VectorStore × List LangDoc)
  dbAvailable : Bool

/-- The combined server state the endpoints read and mutate: the dataset
store and the query-result cache. -/
structure ServerState where
  store : StoreState
  qcache : QCache
  deriving DecidableEq, Repr

/-- The 400 detail message for a query against an identity with no
ingested data (with the `user_info` suffix computed from truthiness of
the user id, as in the source). -/
def noDataDetail (uid : Option String) : String :=
  let user_info :=
    match uid with
    | some u => if u = "" then " (global)" else " for user_id=" ++ u
    | none => " (global)"
  "No context data ingested" ++ user_info ++ ". Please call /ingest endpoint first."

/-- The caller override applied right after `detect_query_mode`:
`if request.use_full_data is not None: mode = "SMART_FULL" if
request.use_full_data else "VECTOR_SEARCH"`. -/
def resolveMode (classified : String) (use_full_data : Option Bool) : String :=
  match use_full_data with
  | some true => "SMART_FULL"
  | some false => "VECTOR_SEARCH"
  | none => classified

/-- `sorted(filtered_docs, key=lambda x: float(x.get('amount', 0)),
reverse=True)`: stable descending sort by amount. -/
def sortDescByAmount (docs : List Txn) : List Txn :=
  docs.mergeSort (fun a b => decide (b.amount ≤ a.amount))

/-- The pagination block shared verbatim by the three endpoint sites:
sort the matching subset descending by amount, slice the
`[(page-1)*page_size, page*page_size)` window, format each row, and
build the pagination metadata. -/
def paginateDocs (fmt : Txn → String) (docs : List Txn)
    (page page_size : Nat) : List String × Pagination :=
  let sorted := sortDescByAmount docs
  let start_idx := (page - 1) * page_size
  let end_idx := start_idx + page_size
  let paginated := (sorted.drop start_idx).take page_size
  (paginated.map fmt,
   { page := page, page_size := page_size, total_items := docs.length,
     total_pages := (docs.length + page_size - 1) / page_size,
     has_next := decide (end_idx < docs.length),
     has_prev := decide (page > 1) })

/-- The inline analytical-intent test of the vector-search branch:
summarization keywords (substring on the lowercased prompt) or the
counting regexes (external matcher, also fed the lowercased prompt). -/
def isAnalytical (c : Collab) (prompt : String) : Bool :=
  ["summarize", "summarise", "summary", "analyze", "analyse",
   "overview", "insights", "patterns", "trends"].any
    (fun kw => strContains prompt.toLower kw)
  || c.is_counting_query prompt.toLower

/-- The fingerprint the `/prompt` endpoint keys the query cache with:
the caller-supplied `query_id` if present, otherwise
`generate_query_id(request.prompt, filters)` — note the call site omits
the `user_id` argument, so it defaults to `None`. -/
def computed_query_id (md5 : String → String) (dump : Filters → String)
    (filters : Filters) (req : PromptRequest) : String :=
  match req.query_id with
  | some q => q
  | none => generate_query_id md5 dump req.prompt filters none

/-- The page-1 / cache-miss path of `query_with_prompt`: classify the
mode (with the caller override), then process the query in the chosen
mode, populate the query cache, and paginate when requested. `effs` is
the trace accumulated before this point. -/
def fresh_branch (c : Collab) (now : Int) (req : PromptRequest) (query_id : String)
    (filters : Filters) (documents : List Txn) (vstore : Option VectorStore)
    (store1 : StoreState) (qc1 : QCache) (effs : List Eff) :
    Except HTTPErr RAGResponse × ServerState × List Eff :=
  let mode := resolveMode (c.detect_query_mode req.prompt documents) req.use_full_data
  let effs1 := effs ++ [Eff.classifyMode]
  let base : RAGResponse :=
    { query_id := query_id, mode := mode, matching_transactions_count := 0,
      filters_applied := none, answer := "", transactions := none,
      pagination := none, statistics := none }
  if mode = "STATISTICAL" then
    let r := c.process_statistical documents req.prompt
    let fd := c.apply_filters documents filters req.prompt
    let qc2 := cache_query_results query_id r.1 mode fd.1 (some r.2.2.1) (some r.2.1) now qc1
    let resp :=
      { base with
        answer := r.1, statistics := some r.2.1,
        filters_applied := some r.2.2.1,
        matching_transactions_count := r.2.2.2 }
    (Except.ok resp,
     { store := store1, qcache := qc2 }, effs1 ++ [Eff.generate, Eff.applyFiltersE])
  else if mode = "SMART_FULL" || req.use_full_data == some true then
    let r := c.process_smart_full documents req.prompt req.show_all
    let qc2 := cache_query_results query_id r.1 mode r.2.1 (some r.2.2) none now qc1
    let base2 :=
      { base with
        answer := r.1,
        matching_transactions_count := r.2.1.length,
        filters_applied := some r.2.2 }
    let resp :=
      if req.show_all && !r.2.1.isEmpty then
        let pr := paginateDocs c.format_txn r.2.1 req.page req.page_size
        { base2 with transactions := some pr.1, pagination := some pr.2 }
      else base2
    (Except.ok resp, { store := store1, qcache := qc2 }, effs1 ++ [Eff.generate])
  else if isAnalytical c req.prompt then
    let result := c.process_analytical documents req.prompt
    let qc2 := cache_query_results query_id result mode [] none none now qc1
    let resp :=
      { base with
        answer := result, matching_transactions_count := documents.length }
    (Except.ok resp,
     { store := store1, qcache := qc2 }, effs1 ++ [Eff.generate])
  else
    let k := min 50 documents.length
    let result := c.process_vector_search vstore req.prompt k
    let resp := { base with answer := result, matching_transactions_count := k }
    (Except.ok resp,
     { store := store1, qcache := qc1 }, effs1 ++ [Eff.generate])

/-- The response assembled by the cached-pagination branch of
`query_with_prompt`: every answer-bearing field is copied from the cache
entry, and when `show_all` is set and the cached matching subset is
non-empty the requested window of the amount-sorted subset is attached. -/
def cachedResponse (fmt : Txn → String) (query_id : String) (cd : CacheEntry)
    (req : PromptRequest) : RAGResponse :=
  let base : RAGResponse :=
    { query_id := query_id, mode := cd.mode,
      matching_transactions_count := cd.filtered_docs.length,
      filters_applied := cd.filters_applied, answer := cd.answer,
      transactions := none, pagination := none,
      statistics := cd.statistics }
  if req.show_all && !cd.filtered_docs.isEmpty then
    let pr := paginateDocs fmt cd.filtered_docs req.page req.page_size
    { base with transactions := some pr.1, pagination := some pr.2 }
  else base

/-- `query_with_prompt(request)` — the `/prompt` endpoint. Guards
(model initialization, ingested-data check), then durable-backed data
retrieval, filter extraction (always — it feeds the fingerprint), cache
lookup, and either the cached-pagination branch (page > 1 with a live
entry) or the fresh processing path. `modelsInit` is the state of the
module-level model references; `now`/`ttl` parameterize the clock and
the configured cache TTL. -/
def query_with_prompt (c : Collab) (md5 : String → String) (dump : Filters → String)
    (modelsInit : Bool) (now ttl : Int) (req : PromptRequest) (st : ServerState) :
    Except HTTPErr RAGResponse × ServerState × List Eff :=
  if !modelsInit then
    (Except.error { status := 503, detail := "Models not initialized" }, st, [])
  else if !has_ingested_data req.user_id c.dbAvailable st.store then
    (Except.error { status := 400, detail := noDataDetail req.user_id }, st, [])
  else
    let g := get_ingested_data req.user_id c.dbAvailable c.build st.store
    let documents := g.1.transactions
    let vstore := g.1.vectorstore
    let store1 := g.2.1
    let filters := c.extract_filters req.prompt
    let effs1 := g.2.2 ++ [Eff.extractFilters]
    let query_id := computed_query_id md5 dump filters req
    let lk := get_cached_query now ttl query_id st.qcache
    let qc1 := lk.2
    match lk.1 with
    | some cd =>
      if req.page > 1 then
        (Except.ok (cachedResponse c.format_txn query_id cd req),
         { store := store1, qcache := qc1 }, effs1)
      else fresh_branch c now req query_id filters documents vstore store1 qc1 effs1
    | none => fresh_branch c now req query_id filters documents vstore store1 qc1 effs1

/-- One Server-Sent-Events frame emitted by `/query/stream` (the JSON
dictionaries of the source rendered structurally). -/
inductive Frame where
  | metadata (query_id : String) (mode : String) (matching : Nat)
  | chunk (content : String)
  | statsFrame (stats : Statistics) (filters_applied : List String) (matching : Nat)
  | metadataFinal (matching : Nat) (filters_applied : Option (List String))
  | done
  deriving DecidableEq, Repr

/-- `query_transactions_stream(request)` — the `/query/stream` endpoint:
the same guards, then the streamed frame sequence: a metadata frame, the
answer chunks, a statistics or final-metadata frame, and a done frame.
In the SMART_FULL branch the source re-extracts and re-applies the
filters after streaming to compute the final matching count. -/
def query_transactions_stream (c : Collab) (md5 : String → String)
    (dump : Filters → String) (modelsInit : Bool) (req : PromptRequest)
    (st : ServerState) : Except HTTPErr (List Frame) × List Eff :=
  if !modelsInit then
    (Except.error { status := 503, detail := "Models not initialized" }, [])
  else if !has_ingested_data req.user_id c.dbAvailable st.store then
    (Except.error { status := 400, detail := noDataDetail req.user_id }, [])
  else
    let g := get_ingested_data req.user_id c.dbAvailable c.build st.store
    let documents := g.1.transactions
    let vstore := g.1.vectorstore
    let filters := c.extract_filters req.prompt
    let effs1 := g.2.2 ++ [Eff.extractFilters]
    let mode := resolveMode (c.detect_query_mode req.prompt documents) req.use_full_data
    let effs2 := effs1 ++ [Eff.classifyMode]
    let query_id := generate_query_id md5 dump req.prompt filters none
    let meta := Frame.metadata query_id mode 0
    if mode = "STATISTICAL" then
      let r := c.process_statistical documents req.prompt
      (Except.ok [meta, Frame.chunk r.1, Frame.statsFrame r.2.1 r.2.2.1 r.2.2.2, Frame.done],
       effs2 ++ [Eff.generate])
    else if mode = "SMART_FULL" || req.use_full_data == some true then
      let chunks := (c.process_smart_full_stream documents req.prompt).map Frame.chunk
      let filters2 := c.extract_filters req.prompt
      let fd := c.apply_filters documents filters2 req.prompt
      (Except.ok ([meta] ++ chunks ++ [Frame.metadataFinal fd.1.length (some fd.2), Frame.done]),
       effs2 ++ [Eff.generate, Eff.extractFilters, Eff.applyFiltersE])
    else if isAnalytical c req.prompt then
      let chunks := (c.process_analytical_stream documents req.prompt).map Frame.chunk
      (Except.ok ([meta] ++ chunks ++ [Frame.metadataFinal documents.length none, Frame.done]),
       effs2 ++ [Eff.generate])
    else
      let k := min 50 documents.length
      let chunks := (c.process_vector_search_stream vstore req.prompt k).map Frame.chunk
      (Except.ok ([meta] ++ chunks ++ [Frame.metadataFinal k none, Frame.done]),
       effs2 ++ [Eff.generate])

/-! ### Concrete fixtures used by witnesses and counterexamples -/

/-- Hash stand-in for the witnesses (the theorems hold for every hash). -/
def demoMd5 : String → String := fun s => s

/-- Canonical filter dump stand-in for the witnesses. -/
def demoDump : Filters → String :=
  fun f => String.intercalate "," (f.map (fun p => p.1 ++ "=" ++ p.2))

def demoTxnA : Txn := { amount := 500, payload := "t500" }

def demoTxnB : Txn := { amount := 100, payload := "t100" }

def demoTxnC : Txn := { amount := 50, payload := "t50" }

/-- A fully computable instantiation of the external collaborators. -/
def demoCollab : Collab :=
  { extract_filters := fun _ => [],
    apply_filters := fun docs _ _ => (docs, []),
    detect_query_mode := fun _ _ => "SMART_FULL",
    process_statistical := fun docs _ => ("stat-answer", [], [], docs.length),
    process_smart_full := fun docs _ _ => ("full-answer", docs, []),
    process_analytical := fun _ _ => "analytical-answer",
    process_vector_search := fun _ _ _ => "vector-answer",
    process_smart_full_stream := fun _ _ => ["chunk1"],
    process_analytical_stream := fun _ _ => ["chunk1"],
    process_vector_search_stream := fun _ _ _ => ["chunk1"],
    format_txn := fun t => t.payload,
    is_counting_query := fun _ => false,
    build := fun txns => some ({ tag := txns.length }, []),
    dbAvailable := true }

def demoDataset : Dataset :=
  { transactions := [demoTxnA, demoTxnB, demoTxnC],
    vectorstore := some { tag := 1 }, langchain_docs := [],
    last_updated := some "2026-01-01" }

def demoStore : StoreState :=
  { memory := [("u1", demoDataset)], legacy := emptyDataset, db := [], log := [] }

def demoEntry : CacheEntry :=
  { answer := "cached-answer", mode := "SMART_FULL",
    filtered_docs := [demoTxnB, demoTxnA], filters_applied := some ["above 80"],
    statistics := none, timestamp := 0 }

def demoServer : ServerState :=
  { store := demoStore, qcache := [("q1", demoEntry)] }

/-- A page-2 request carrying the fingerprint of a live cache entry. -/
def c2Req : PromptRequest :=
  { prompt := "show all my transactions", user_id := some "u1",
    query_id := some "q1", page := 2, page_size := 1, show_all := true,
    use_full_data := none }

/-- A page-1 request with an explicit use_full_data override. -/
def c7Req : PromptRequest :=
  { prompt := "what did I spend", user_id := some "u1", query_id := none,
    page := 1, page_size := 10, show_all := false, use_full_data := some false }

/-- A request from an identity that never ingested data. -/
def c8Req : PromptRequest :=
  { prompt := "hello", user_id := some "u9", query_id := none,
    page := 1, page_size := 10, show_all := false, use_full_data := none }

/-- A durable-tier row for an identity absent from the memory tier. -/
def demoRec : DBRecord := { transactions := [demoTxnA], last_updated := "2026-01-01" }

/-- Store with a cold memory tier and one durable row. -/
def coldStore : StoreState :=
  { memory := [], legacy := emptyDataset, db := [("u1", demoRec)], log := [] }

/-- Store with no data in either tier. -/
def bareStore : StoreState :=
  { memory := [], legacy := emptyDataset, db := [], log := [] }

/-! ## Theorems -/

/-! ### Association-list lemmas -/

theorem lookupKey_insert_self (k : String) (v : α) (l : List (String × α)) :
    lookupKey k (insertAssoc k v l) = some v := by
  simp [insertAssoc, lookupKey]

theorem lookupKey_filter_ne (k : String) (l : List (String × α)) :
    lookupKey k (l.filter (fun p => p.1 ≠ k)) = none := by
  induction l with
  | nil => simp [lookupKey]
  | cons hd tl ih =>
    rw [List.filter_cons]
    by_cases h : hd.1 = k
    · simpa [h] using ih
    · simpa [lookupKey, h] using ih

theorem lookupKey_filter_of_none (k : String) (p : String × α → Bool)
    (l : List (String × α)) (h : lookupKey k l = none) :
    lookupKey k (l.filter p) = none := by
  induction l with
  | nil => simp [lookupKey]
  | cons hd tl ih =>
    rw [List.filter_cons]
    by_cases hk : hd.1 = k
    · simp [lookupKey, hk] at h
    · have h2 : lookupKey k tl = none := by
        simpa [lookupKey, hk] using h
      by_cases hp : p hd = true
      · simpa [lookupKey, hp, hk] using ih h2
      · simp only [hp]
        simpa using ih h2

/-! ### Claim C5 — cache TTL -/

/-- Claim C5: a Query Result Cache entry stored at time T with
time-to-live ttl is returned by a lookup at any time t up to T + ttl,
and a lookup at any time strictly after T + ttl returns absent and
removes the entry from the cache (lazy expiry on lookup). -/
theorem c5_cache_ttl (c : QCache) (qid answer mode : String) (docs : List Txn)
    (fa : Option (List String)) (stats : Option Statistics) (T ttl t : Int) :
    (t ≤ T + ttl →
      (get_cached_query t ttl qid
          (cache_query_results qid answer mode docs fa stats T c)).1 =
        some { answer := answer, mode := mode, filtered_docs := docs,
               filters_applied := fa, statistics := stats, timestamp := T }) ∧
    (T + ttl < t →
      (get_cached_query t ttl qid
          (cache_query_results qid answer mode docs fa stats T c)).1 = none ∧
      lookupKey qid
        (get_cached_query t ttl qid
          (cache_query_results qid answer mode docs fa stats T c)).2 = none) := by
  constructor
  · intro ht
    have hdec : decide (t - T ≤ ttl) = true := by
      simp only [decide_eq_true_eq]; omega
    simp only [cache_query_results, insertAssoc, get_cached_query,
      cleanup_expired_cache, List.filter_cons, hdec, if_true, lookupKey,
      if_pos rfl]
    simp only [if_pos (show t - T ≤ ttl by omega)]
  · intro ht
    have hdec : decide (t - T ≤ ttl) = false := by
      simp only [decide_eq_false_iff_not]; omega
    have hnone : lookupKey qid
        ((List.filter (fun p => p.1 ≠ qid) c).filter
          (fun p => decide (t - p.2.timestamp ≤ ttl))) = none :=
      lookupKey_filter_of_none _ _ _ (lookupKey_filter_ne qid c)
    simp only [cache_query_results, insertAssoc, get_cached_query,
      cleanup_expired_cache, List.filter_cons, hdec, if_false, Bool.false_eq_true]
    rw [hnone]
    exact ⟨rfl, hnone⟩

/-- Witness for C5 at concrete inputs: an entry stored at time 0 with a
TTL of 30 is present at time 30 and absent (and purged) at time 31. -/
theorem c5_cache_ttl_witness :
    (get_cached_query 30 30 "q"
        (cache_query_results "q" "ans" "SMART_FULL" [] none none 0 [])).1 =
      some { answer := "ans", mode := "SMART_FULL", filtered_docs := [],
             filters_applied := none, statistics := none, timestamp := 0 } ∧
    (get_cached_query 31 30 "q"
        (cache_query_results "q" "ans" "SMART_FULL" [] none none 0 [])).1 = none ∧
    lookupKey "q"
      (get_cached_query 31 30 "q"
        (cache_query_results "q" "ans" "SMART_FULL" [] none none 0 [])).2 = none := by
  refine ⟨?_, ?_⟩
  · exact (c5_cache_ttl [] "q" "ans" "SMART_FULL" [] none none 0 30 30).1 (by omega)
  · exact (c5_cache_ttl [] "q" "ans" "SMART_FULL" [] none none 0 30 31).2 (by omega)

/-! ### Claim C1 — fingerprint and identity -/

/-- Claim C1 (refuting theorem): the fingerprint the query-resolution
endpoint actually keys the Query Result Cache with is computed by
`generate_query_id(request.prompt, filters)` with the `user_id` argument
omitted, so for every hash, every filter dump, every question and every
two identities — identical or not — the computed fingerprints coincide:
the requesting identity is not incorporated and two identities asking
the same question share a cache entry. -/
theorem c1_endpoint_fingerprint_ignores_identity (md5 : String → String)
    (dump : Filters → String) (c : Collab) (prompt : String)
    (page page_size : Nat) (show_all : Bool) (ufd : Option Bool)
    (id1 id2 : Option String) :
    computed_query_id md5 dump (c.extract_filters prompt)
      { prompt := prompt, user_id := id1, query_id := none, page := page,
        page_size := page_size, show_all := show_all, use_full_data := ufd } =
    computed_query_id md5 dump (c.extract_filters prompt)
      { prompt := prompt, user_id := id2, query_id := none, page := page,
        page_size := page_size, show_all := show_all, use_full_data := ufd } := rfl

/-! ### Claim C3 — put updates memory, durable failure only logged -/

/-- Claim C3: `set_ingested_data` with an identity installs the new
dataset in the in-memory tier by the time the call returns (before the
background durable write runs); the background write never changes the
in-memory dataset whatever its outcome, and when it fails the only
difference from the success-free state is an appended log line (nothing
is raised to the caller — the function is total). -/
theorem c3_put_memory_first_db_failure_logged (txns : List Txn) (vs : VectorStore)
    (ldocs : List LangDoc) (u : String) (hu : u ≠ "") (now : String)
    (st : StoreState) :
    lookupKey u (set_ingested_data_sync txns vs ldocs (some u) now st).memory =
      some { transactions := txns, vectorstore := some vs,
             langchain_docs := ldocs, last_updated := some now } ∧
    (∀ dbAvailable dbFails : Bool,
      (set_ingested_data txns vs ldocs (some u) now dbAvailable dbFails st).memory =
        (set_ingested_data_sync txns vs ldocs (some u) now st).memory) ∧
    set_ingested_data txns vs ldocs (some u) now true true st =
      { set_ingested_data_sync txns vs ldocs (some u) now st with
        log := ("Background database save failed for " ++ u) :: st.log } := by
  have hiu : isUser (some u) = true := by simp [isUser, hu]
  have hk : storageKey (some u) = u := by simp [storageKey, hu]
  refine ⟨?_, ?_, ?_⟩
  · simp [set_ingested_data_sync, hiu, hk, lookupKey_insert_self]
  · intro dbA dbF
    simp only [set_ingested_data, hiu, Bool.and_true]
    rcases dbA with _ | _
    · simp
    · rcases dbF with _ | _ <;> simp [save_to_db]
  · simp [set_ingested_data, save_to_db, hiu, hk, set_ingested_data_sync]

/-- Witness for C3 at concrete inputs. -/
theorem c3_put_memory_first_db_failure_logged_witness :
    lookupKey "u1" (set_ingested_data_sync [demoTxnA] { tag := 7 } [] (some "u1")
        "2026-02-02" demoStore).memory =
      some { transactions := [demoTxnA], vectorstore := some { tag := 7 },
             langchain_docs := [], last_updated := some "2026-02-02" } ∧
    (∀ dbAvailable dbFails : Bool,
      (set_ingested_data [demoTxnA] { tag := 7 } [] (some "u1") "2026-02-02"
          dbAvailable dbFails demoStore).memory =
        (set_ingested_data_sync [demoTxnA] { tag := 7 } [] (some "u1")
          "2026-02-02" demoStore).memory) ∧
    set_ingested_data [demoTxnA] { tag := 7 } [] (some "u1") "2026-02-02"
        true true demoStore =
      { set_ingested_data_sync [demoTxnA] { tag := 7 } [] (some "u1")
          "2026-02-02" demoStore with
        log := ("Background database save failed for " ++ "u1") :: demoStore.log } :=
  c3_put_memory_first_db_failure_logged [demoTxnA] { tag := 7 } [] "u1"
    (by decide) "2026-02-02" demoStore

/-! ### Claim C4 — get degrades on rebuild failure, empty on total miss -/

/-- Claim C4: when the identity is absent from the in-memory tier, a
durable-tier hit whose index rebuild fails yields the stored
transactions with an absent vectorstore (no exception escapes — the
function is total), and a miss in both tiers yields the empty dataset
with an empty transaction sequence and an absent timestamp. -/
theorem c4_get_degraded_index_or_empty (u : String) (hu : u ≠ "")
    (st : StoreState) (build : List Txn → Option (VectorStore × List LangDoc))
    (hmem : lookupKey u st.memory = none) :
    (∀ rec, lookupKey u st.db = some rec → build rec.transactions = none →
      (get_ingested_data (some u) true build st).1 =
        { transactions := rec.transactions, vectorstore := none,
          langchain_docs := [], last_updated := some rec.last_updated }) ∧
    (lookupKey u st.db = none →
      (get_ingested_data (some u) true build st).1 = emptyDataset ∧
      emptyDataset.transactions = [] ∧ emptyDataset.last_updated = none) := by
  have hiu : isUser (some u) = true := by simp [isUser, hu]
  have hk : storageKey (some u) = u := by simp [storageKey, hu]
  constructor
  · intro rec hdb hb
    simp [get_ingested_data, hiu, hk, hmem, hdb, hb]
  · intro hdb
    simp [get_ingested_data, hiu, hk, hmem, hdb, emptyDataset]

/-- Witness for C4 at concrete inputs: a cold memory tier with one
durable row and an always-failing index builder, and a store with no
data at all. -/
theorem c4_get_degraded_index_or_empty_witness :
    (get_ingested_data (some "u1") true (fun _ => none) coldStore).1 =
      { transactions := [demoTxnA], vectorstore := none,
        langchain_docs := [], last_updated := some "2026-01-01" } ∧
    (get_ingested_data (some "u1") true (fun _ => none) bareStore).1 = emptyDataset ∧
    emptyDataset.transactions = [] ∧ emptyDataset.last_updated = none := by
  constructor
  · exact (c4_get_degraded_index_or_empty "u1" (by decide) coldStore
      (fun _ => none) (by decide)).1 demoRec (by decide) rfl
  · exact (c4_get_degraded_index_or_empty "u1" (by decide) bareStore
      (fun _ => none) (by decide)).2 (by decide)

/-! ### Claim C9 — durable load installs the dataset in memory -/

/-- Claim C9: after `get_ingested_data` loads an identity from the
durable tier (for any index builder, including a failing one), the
loaded dataset sits in the in-memory tier, and every subsequent get for
that identity on the resulting state returns exactly that dataset with
an unchanged state and an empty effect trace — no durable query and no
index rebuild. -/
theorem c9_durable_load_installs_memory (u : String) (hu : u ≠ "")
    (st : StoreState) (build : List Txn → Option (VectorStore × List LangDoc))
    (rec : DBRecord) (hmem : lookupKey u st.memory = none)
    (hdb : lookupKey u st.db = some rec) :
    lookupKey u (get_ingested_data (some u) true build st).2.1.memory =
      some (get_ingested_data (some u) true build st).1 ∧
    ∀ build2, get_ingested_data (some u) true build2
        (get_ingested_data (some u) true build st).2.1 =
      ((get_ingested_data (some u) true build st).1,
       (get_ingested_data (some u) true build st).2.1, ([] : List Eff)) := by
  have hiu : isUser (some u) = true := by simp [isUser, hu]
  have hk : storageKey (some u) = u := by simp [storageKey, hu]
  constructor
  · simp [get_ingested_data, hiu, hk, hmem, hdb, lookupKey_insert_self]
  · intro build2
    conv_lhs => rw [get_ingested_data]
    simp [get_ingested_data, hiu, hk, hmem, hdb, lookupKey_insert_self]

/-- Witness for C9 at concrete inputs (with a failing index builder, so
the installed dataset has an absent derived index). -/
theorem c9_durable_load_installs_memory_witness :
    lookupKey "u1" (get_ingested_data (some "u1") true (fun _ => none)
        coldStore).2.1.memory =
      some (get_ingested_data (some "u1") true (fun _ => none) coldStore).1 ∧
    ∀ build2, get_ingested_data (some "u1") true build2
        (get_ingested_data (some "u1") true (fun _ => none) coldStore).2.1 =
      ((get_ingested_data (some "u1") true (fun _ => none) coldStore).1,
       (get_ingested_data (some "u1") true (fun _ => none) coldStore).2.1,
       ([] : List Eff)) :=
  c9_durable_load_installs_memory "u1" (by decide) coldStore (fun _ => none)
    demoRec (by decide) (by decide)

/-! ### Claim C10 — empty matching subset short-circuits generation -/

/-- Claim C10: with an empty matching subset,
`generate_conversational_answer` returns the canned no-transactions
message and `generate_conversational_answer_stream` yields exactly one
no-transactions chunk (chosen from the language of the question), both
with an empty effect trace — the generation collaborator is never
invoked — regardless of the filters, the filter descriptions, the
show_all flag, or whether an LLM instance was supplied. -/
theorem c10_empty_subset_skips_llm (question : String) (filters : Filters)
    (fdescs : Option (List String)) (show_all : Bool) (llm : Option LLM) :
    generate_conversational_answer question [] filters fdescs show_all llm =
      (noTxnMessage, []) ∧
    generate_conversational_answer_stream question [] filters fdescs llm =
      ([noTxnStreamMessage question], []) :=
  ⟨rfl, rfl⟩

/-! ### Endpoint helper lemmas -/

theorem fresh_branch_ok_mode (c : Collab) (now : Int) (req : PromptRequest)
    (query_id : String) (filters : Filters) (documents : List Txn)
    (vstore : Option VectorStore) (store1 : StoreState) (qc1 : QCache)
    (effs : List Eff) :
    ∃ resp, (fresh_branch c now req query_id filters documents vstore store1 qc1 effs).1 =
        Except.ok resp ∧
      resp.mode = resolveMode (c.detect_query_mode req.prompt documents)
        req.use_full_data := by
  simp only [fresh_branch]
  split_ifs <;> exact ⟨_, rfl, rfl⟩

theorem get_ingested_effs_sub (uid : Option String) (dbA : Bool)
    (build : List Txn → Option (VectorStore × List LangDoc)) (st : StoreState) :
    ∀ e ∈ (get_ingested_data uid dbA build st).2.2,
      e = Eff.dbQuery ∨ e = Eff.rebuildIndex := by
  intro e he
  unfold get_ingested_data at he
  rcases hmem : lookupKey (storageKey uid) st.memory with _ | d
  all_goals rcases hdb : lookupKey (storageKey uid) st.db with _ | r
  all_goals repeat' split at he
  all_goals simp_all

/-! ### Claim C7 — use_full_data override -/

/-- Claim C7: on the fresh-processing path of `/prompt` (page 1), the
resolved mode equals the classifier output filtered through the caller
override: SMART_FULL when `use_full_data` is true, VECTOR_SEARCH when it
is false — regardless of the classifier — and the classifier result
unchanged when the flag is null. -/
theorem c7_use_full_data_override (c : Collab) (md5 : String → String)
    (dump : Filters → String) (now ttl : Int) (req : PromptRequest)
    (st : ServerState)
    (hdata : has_ingested_data req.user_id c.dbAvailable st.store = true)
    (hpage : req.page = 1) :
    ∃ resp, (query_with_prompt c md5 dump true now ttl req st).1 = Except.ok resp ∧
      resp.mode = resolveMode (c.detect_query_mode req.prompt
        (get_ingested_data req.user_id c.dbAvailable c.build st.store).1.transactions)
        req.use_full_data ∧
      (req.use_full_data = some true → resp.mode = "SMART_FULL") ∧
      (req.use_full_data = some false → resp.mode = "VECTOR_SEARCH") ∧
      (req.use_full_data = none → resp.mode = c.detect_query_mode req.prompt
        (get_ingested_data req.user_id c.dbAvailable c.build st.store).1.transactions) := by
  simp only [query_with_prompt, Bool.not_true, Bool.false_eq_true, if_false, hdata,
    hpage]
  have hfresh := fresh_branch_ok_mode c now req
    (computed_query_id md5 dump (c.extract_filters req.prompt) req)
    (c.extract_filters req.prompt)
    (get_ingested_data req.user_id c.dbAvailable c.build st.store).1.transactions
    (get_ingested_data req.user_id c.dbAvailable c.build st.store).1.vectorstore
    (get_ingested_data req.user_id c.dbAvailable c.build st.store).2.1
    (get_cached_query now ttl
      (computed_query_id md5 dump (c.extract_filters req.prompt) req) st.qcache).2
    ((get_ingested_data req.user_id c.dbAvailable c.build st.store).2.2 ++
      [Eff.extractFilters])
  obtain ⟨resp, hok, hmode⟩ := hfresh
  rcases hlk : (get_cached_query now ttl
      (computed_query_id md5 dump (c.extract_filters req.prompt) req) st.qcache).1
      with _ | cd
  · exact ⟨resp, hok, hmode, fun h => by rw [hmode, h]; rfl,
      fun h => by rw [hmode, h]; rfl, fun h => by rw [hmode, h]; rfl⟩
  · simp only [Nat.lt_irrefl, if_false]
    exact ⟨resp, hok, hmode, fun h => by rw [hmode, h]; rfl,
      fun h => by rw [hmode, h]; rfl, fun h => by rw [hmode, h]; rfl⟩

/-- Witness for C7 at concrete inputs: a page-1 request with
`use_full_data = false` resolves to VECTOR_SEARCH even though the demo
classifier answers SMART_FULL. -/
theorem c7_use_full_data_override_witness :
    ∃ resp, (query_with_prompt demoCollab demoMd5 demoDump true 0 30 c7Req
        demoServer).1 = Except.ok resp ∧
      resp.mode = resolveMode (demoCollab.detect_query_mode c7Req.prompt
        (get_ingested_data c7Req.user_id demoCollab.dbAvailable demoCollab.build
          demoServer.store).1.transactions) c7Req.use_full_data ∧
      (c7Req.use_full_data = some true → resp.mode = "SMART_FULL") ∧
      (c7Req.use_full_data = some false → resp.mode = "VECTOR_SEARCH") ∧
      (c7Req.use_full_data = none → resp.mode = demoCollab.detect_query_mode
        c7Req.prompt (get_ingested_data c7Req.user_id demoCollab.dbAvailable
          demoCollab.build demoServer.store).1.transactions) :=
  c7_use_full_data_override demoCollab demoMd5 demoDump 0 30 c7Req demoServer
    (by decide) rfl

/-! ### Claim C8 — no-data requests fail with 400 before any processing -/

/-- Claim C8: a `/prompt` or `/query/stream` request for an identity
whose exists-check is false fails with HTTP 400, a detail message ending
in guidance to call the ingest endpoint first, an unchanged state, and
an empty effect trace — no classification, filtering, or generation has
run (the models-initialized guard is assumed passed, as configuration
errors are a separate 503 class). -/
theorem c8_no_data_yields_400 (c : Collab) (md5 : String → String)
    (dump : Filters → String) (now ttl : Int) (req : PromptRequest)
    (st : ServerState)
    (hdata : has_ingested_data req.user_id c.dbAvailable st.store = false) :
    query_with_prompt c md5 dump true now ttl req st =
      (Except.error { status := 400, detail := noDataDetail req.user_id }, st, []) ∧
    query_transactions_stream c md5 dump true req st =
      (Except.error { status := 400, detail := noDataDetail req.user_id }, []) ∧
    ∃ pre, noDataDetail req.user_id = pre ++ ". Please call /ingest endpoint first." := by
  refine ⟨?_, ?_, ⟨_, rfl⟩⟩
  · simp [query_with_prompt, hdata]
  · simp [query_transactions_stream, hdata]

/-- Witness for C8 at concrete inputs: identity u9 never ingested. -/
theorem c8_no_data_yields_400_witness :
    query_with_prompt demoCollab demoMd5 demoDump true 0 30 c8Req demoServer =
      (Except.error { status := 400, detail := noDataDetail c8Req.user_id },
       demoServer, []) ∧
    query_transactions_stream demoCollab demoMd5 demoDump true c8Req demoServer =
      (Except.error { status := 400, detail := noDataDetail c8Req.user_id }, []) ∧
    ∃ pre, noDataDetail c8Req.user_id = pre ++ ". Please call /ingest endpoint first." :=
  c8_no_data_yields_400 demoCollab demoMd5 demoDump 0 30 c8Req demoServer (by decide)

theorem query_with_prompt_cached_run (c : Collab) (md5 : String → String)
    (dump : Filters → String) (now ttl : Int) (req : PromptRequest)
    (st : ServerState) (cd : CacheEntry)
    (hdata : has_ingested_data req.user_id c.dbAvailable st.store = true)
    (hcache : (get_cached_query now ttl
        (computed_query_id md5 dump (c.extract_filters req.prompt) req)
        st.qcache).1 = some cd)
    (hpage : 1 < req.page) :
    query_with_prompt c md5 dump true now ttl req st =
      (Except.ok (cachedResponse c.format_txn
          (computed_query_id md5 dump (c.extract_filters req.prompt) req) cd req),
       { store := (get_ingested_data req.user_id c.dbAvailable c.build st.store).2.1,
         qcache := (get_cached_query now ttl
           (computed_query_id md5 dump (c.extract_filters req.prompt) req)
           st.qcache).2 },
       (get_ingested_data req.user_id c.dbAvailable c.build st.store).2.2 ++
         [Eff.extractFilters]) := by
  simp only [query_with_prompt, Bool.not_true, Bool.false_eq_true, if_false,
    hdata, hcache]
  rw [if_pos hpage]

/-! ### Claim C2 — cached pagination -/

/-- Counterexample to claim C2 as stated: a concrete page-2 request
whose fingerprint has a live cache entry still produces the effect trace
`[Eff.extractFilters]` — the endpoint invokes filter extraction on every
request (transactions.py line 483, to compute the fingerprint), so the
claim that cached pagination runs without invoking filter extraction is
false on the code. -/
theorem c2_counterexample :
    1 < c2Req.page ∧
    (get_cached_query 0 30 (computed_query_id demoMd5 demoDump
        (demoCollab.extract_filters c2Req.prompt) c2Req) demoServer.qcache).1 =
      some demoEntry ∧
    (query_with_prompt demoCollab demoMd5 demoDump true 0 30 c2Req
        demoServer).2.2 = [Eff.extractFilters] := by
  refine ⟨by decide, rfl, rfl⟩

/-- Claim C2 (amended): a `/prompt` request with page > 1 whose
fingerprint has an unexpired cache entry returns the cached answer,
mode, filter descriptions and statistics without invoking mode
classification, filter application, or the generation collaborator —
filter extraction alone still runs, to compute the fingerprint — and
the returned transaction page is the requested (page, page_size) window
of the cached matching subset sorted descending by amount. -/
theorem c2_cached_pagination_skips_processing (c : Collab) (md5 : String → String)
    (dump : Filters → String) (now ttl : Int) (req : PromptRequest)
    (st : ServerState) (cd : CacheEntry)
    (hdata : has_ingested_data req.user_id c.dbAvailable st.store = true)
    (hcache : (get_cached_query now ttl
        (computed_query_id md5 dump (c.extract_filters req.prompt) req)
        st.qcache).1 = some cd)
    (hpage : 1 < req.page) :
    (query_with_prompt c md5 dump true now ttl req st).1 =
      Except.ok (cachedResponse c.format_txn
        (computed_query_id md5 dump (c.extract_filters req.prompt) req) cd req) ∧
    (cachedResponse c.format_txn
      (computed_query_id md5 dump (c.extract_filters req.prompt) req) cd req).answer =
        cd.answer ∧
    (cachedResponse c.format_txn
      (computed_query_id md5 dump (c.extract_filters req.prompt) req) cd req).mode =
        cd.mode ∧
    (cachedResponse c.format_txn
      (computed_query_id md5 dump (c.extract_filters req.prompt) req) cd
        req).filters_applied = cd.filters_applied ∧
    (cachedResponse c.format_txn
      (computed_query_id md5 dump (c.extract_filters req.prompt) req) cd
        req).statistics = cd.statistics ∧
    (cachedResponse c.format_txn
      (computed_query_id md5 dump (c.extract_filters req.prompt) req) cd
        req).matching_transactions_count = cd.filtered_docs.length ∧
    (req.show_all = true → cd.filtered_docs ≠ [] →
      (cachedResponse c.format_txn
        (computed_query_id md5 dump (c.extract_filters req.prompt) req) cd
          req).transactions =
        some ((((sortDescByAmount cd.filtered_docs).drop
          ((req.page - 1) * req.page_size)).take req.page_size).map c.format_txn)) ∧
    Eff.classifyMode ∉ (query_with_prompt c md5 dump true now ttl req st).2.2 ∧
    Eff.applyFiltersE ∉ (query_with_prompt c md5 dump true now ttl req st).2.2 ∧
    Eff.generate ∉ (query_with_prompt c md5 dump true now ttl req st).2.2 := by
  have hrun := query_with_prompt_cached_run c md5 dump now ttl req st cd hdata
    hcache hpage
  have hnotin : ∀ e : Eff, e ≠ Eff.dbQuery → e ≠ Eff.rebuildIndex →
      e ≠ Eff.extractFilters →
      e ∉ (get_ingested_data req.user_id c.dbAvailable c.build st.store).2.2 ++
        [Eff.extractFilters] := by
    intro e h1 h2 h3 hmem
    rcases List.mem_append.1 hmem with h | h
    · rcases get_ingested_effs_sub _ _ _ _ e h with h4 | h4
      · exact h1 h4
      · exact h2 h4
    · simp at h
      exact h3 h
  refine ⟨by rw [hrun], ?_, ?_, ?_, ?_, ?_, ?_, ?_, ?_, ?_⟩
  · simp only [cachedResponse]
    split <;> rfl
  · simp only [cachedResponse]
    split <;> rfl
  · simp only [cachedResponse]
    split <;> rfl
  · simp only [cachedResponse]
    split <;> rfl
  · simp only [cachedResponse]
    split <;> rfl
  · intro hs hne
    have hie : cd.filtered_docs.isEmpty = false := by
      rcases h : cd.filtered_docs with _ | ⟨x, xs⟩
      · exact absurd h hne
      · rfl
    simp [cachedResponse, paginateDocs, hs, hie]
  · rw [hrun]
    exact hnotin Eff.classifyMode (by decide) (by decide) (by decide)
  · rw [hrun]
    exact hnotin Eff.applyFiltersE (by decide) (by decide) (by decide)
  · rw [hrun]
    exact hnotin Eff.generate (by decide) (by decide) (by decide)

/-- Witness for the amended C2 at concrete inputs: the page-2 request
against the live demo cache entry. -/
theorem c2_cached_pagination_skips_processing_witness :
    (query_with_prompt demoCollab demoMd5 demoDump true 0 30 c2Req demoServer).1 =
      Except.ok (cachedResponse demoCollab.format_txn
        (computed_query_id demoMd5 demoDump
          (demoCollab.extract_filters c2Req.prompt) c2Req) demoEntry c2Req) ∧
    (cachedResponse demoCollab.format_txn
      (computed_query_id demoMd5 demoDump
        (demoCollab.extract_filters c2Req.prompt) c2Req) demoEntry c2Req).answer =
        demoEntry.answer ∧
    (cachedResponse demoCollab.format_txn
      (computed_query_id demoMd5 demoDump
        (demoCollab.extract_filters c2Req.prompt) c2Req) demoEntry c2Req).mode =
        demoEntry.mode ∧
    (cachedResponse demoCollab.format_txn
      (computed_query_id demoMd5 demoDump
        (demoCollab.extract_filters c2Req.prompt) c2Req) demoEntry
        c2Req).filters_applied = demoEntry.filters_applied ∧
    (cachedResponse demoCollab.format_txn
      (computed_query_id demoMd5 demoDump
        (demoCollab.extract_filters c2Req.prompt) c2Req) demoEntry
        c2Req).statistics = demoEntry.statistics ∧
    (cachedResponse demoCollab.format_txn
      (computed_query_id demoMd5 demoDump
        (demoCollab.extract_filters c2Req.prompt) c2Req) demoEntry
        c2Req).matching_transactions_count = demoEntry.filtered_docs.length ∧
    (c2Req.show_all = true → demoEntry.filtered_docs ≠ [] →
      (cachedResponse demoCollab.format_txn
        (computed_query_id demoMd5 demoDump
          (demoCollab.extract_filters c2Req.prompt) c2Req) demoEntry
          c2Req).transactions =
        some ((((sortDescByAmount demoEntry.filtered_docs).drop
          ((c2Req.page - 1) * c2Req.page_size)).take c2Req.page_size).map
            demoCollab.format_txn)) ∧
    Eff.classifyMode ∉
      (query_with_prompt demoCollab demoMd5 demoDump true 0 30 c2Req demoServer).2.2 ∧
    Eff.applyFiltersE ∉
      (query_with_prompt demoCollab demoMd5 demoDump true 0 30 c2Req demoServer).2.2 ∧
    Eff.generate ∉
      (query_with_prompt demoCollab demoMd5 demoDump true 0 30 c2Req demoServer).2.2 :=
  c2_cached_pagination_skips_processing demoCollab demoMd5 demoDump 0 30 c2Req
    demoServer demoEntry (by decide) (by decide) (by decide)

/-! ### Claim C6 — pagination boundaries -/

theorem mod_pred (N P : Nat) (hN : 0 < N) (hP : 0 < P) :
    (N - 1) % P = if N % P = 0 then P - 1 else N % P - 1 := by
  rcases Nat.eq_zero_or_pos (N % P) with h0 | hpos
  · obtain ⟨k, hk⟩ := Nat.dvd_of_mod_eq_zero h0
    rcases k with _ | k0
    · subst hk
      simp at hN
    · have hk2 : N = P * k0 + P := by rw [hk, Nat.mul_succ]
      rw [show N - 1 = P * k0 + (P - 1) by omega, Nat.mul_add_mod,
        Nat.mod_eq_of_lt (by omega), if_pos h0]
  · have h3 := Nat.div_add_mod N P
    have h4 : N % P < P := Nat.mod_lt _ hP
    rw [show N - 1 = P * (N / P) + (N % P - 1) by omega, Nat.mul_add_mod,
      Nat.mod_eq_of_lt (by omega), if_neg (by omega)]

/-- Claim C6: for a non-empty matching subset paginated with page size
P > 0, the last page L = ceil(N / P) holds N mod P transactions (or P
when P divides N exactly), has_next is false on page L and true on every
earlier page ≥ 1, and has_prev is false exactly on page 1. -/
theorem c6_pagination_boundaries (fmt : Txn → String) (docs : List Txn) (P : Nat)
    (hN : docs ≠ []) (hP : 0 < P) :
    ((paginateDocs fmt docs ((docs.length + P - 1) / P) P).1.length =
      if docs.length % P = 0 then P else docs.length % P) ∧
    (paginateDocs fmt docs ((docs.length + P - 1) / P) P).2.has_next = false ∧
    (∀ p, 1 ≤ p → p < (docs.length + P - 1) / P →
      (paginateDocs fmt docs p P).2.has_next = true) ∧
    (∀ p, 1 ≤ p → ((paginateDocs fmt docs p P).2.has_prev = false ↔ p = 1)) := by
  have hN0 : 0 < docs.length := List.length_pos.2 hN
  have hL : (docs.length + P - 1) / P = (docs.length - 1) / P + 1 := by
    rw [show docs.length + P - 1 = docs.length - 1 + P by omega,
      Nat.add_div_right _ hP]
  have h2 := Nat.div_add_mod (docs.length - 1) P
  have hr : (docs.length - 1) % P < P := Nat.mod_lt _ hP
  have hrn : docs.length % P < P := Nat.mod_lt _ hP
  have hsortlen : (sortDescByAmount docs).length = docs.length := by
    simp [sortDescByAmount, List.length_mergeSort]
  have hstart : ((docs.length - 1) / P) * P =
      docs.length - 1 - (docs.length - 1) % P := by
    rw [Nat.mul_comm]
    omega
  refine ⟨?_, ?_, ?_, ?_⟩
  · simp only [paginateDocs, List.length_map, List.length_take, List.length_drop,
      hsortlen, hL, Nat.add_sub_cancel]
    rw [show docs.length - ((docs.length - 1) / P) * P =
        (docs.length - 1) % P + 1 by omega]
    rw [Nat.min_eq_right (by omega)]
    rw [mod_pred docs.length P hN0 hP]
    by_cases h0 : docs.length % P = 0 <;> simp [h0] <;> omega
  · simp only [paginateDocs, hL, Nat.add_sub_cancel, decide_eq_false_iff_not]
    omega
  · intro p h1 hpL
    rw [hL] at hpL
    have hpP : (p - 1) * P + P = p * P := by
      rw [show p * P = (p - 1 + 1) * P by rw [Nat.sub_add_cancel h1],
        Nat.succ_mul]
    have hle : p * P ≤ ((docs.length - 1) / P) * P :=
      Nat.mul_le_mul_right P (by omega)
    simp only [paginateDocs, decide_eq_true_eq]
    omega
  · intro p h1
    simp only [paginateDocs, decide_eq_false_iff_not]
    omega

/-- Witness for C6 at concrete inputs: three transactions with page size
two — the last page (page 2) holds one transaction, has_next is true
only on page 1, has_prev is false only on page 1. -/
theorem c6_pagination_boundaries_witness :
    ((paginateDocs Txn.payload [demoTxnA, demoTxnB, demoTxnC]
        (([demoTxnA, demoTxnB, demoTxnC].length + 2 - 1) / 2) 2).1.length =
      if [demoTxnA, demoTxnB, demoTxnC].length % 2 = 0 then 2
      else [demoTxnA, demoTxnB, demoTxnC].length % 2) ∧
    (paginateDocs Txn.payload [demoTxnA, demoTxnB, demoTxnC]
        (([demoTxnA, demoTxnB, demoTxnC].length + 2 - 1) / 2) 2).2.has_next = false ∧
    (∀ p, 1 ≤ p → p < ([demoTxnA, demoTxnB, demoTxnC].length + 2 - 1) / 2 →
      (paginateDocs Txn.payload [demoTxnA, demoTxnB, demoTxnC] p 2).2.has_next = true) ∧
    (∀ p, 1 ≤ p →
      ((paginateDocs Txn.payload [demoTxnA, demoTxnB, demoTxnC] p 2).2.has_prev =
        false ↔ p = 1)) :=
  c6_pagination_boundaries Txn.payload [demoTxnA, demoTxnB, demoTxnC] 2
    (by decide) (by decide)

end VittaManthan
